import Mathlib

/-!
Verification of the loan data-cleaning pipeline (`src/data_cleaning.py` and
`src/data-cleaning.py`) against its specification.

A pandas DataFrame is embedded as a list of rows; a row is an association
list from column names to cells.  A cell is `Option Value`: `none` models a
pandas missing value (`NaN`/`NaT`/`None`), and an absent key also reads as
missing.  Numeric values are modelled exactly (`Int` / `ℚ`); the `float32`
narrowing performed by `astype('float32')` is abstracted to exact
arithmetic.  Dates are month-level (`pd.to_datetime` with `%b`/`%y`/`%Y`
formats always yields the first of the month).  Python exceptions are
modelled by `Except Err`.
-/

set_option autoImplicit false

namespace Loan

/-- A month-level calendar date, the result of parsing `Mon-YY` style strings. -/
structure Date where
  year : Nat
  month : Nat
deriving DecidableEq, Repr

/-- A typed cell value of the table. -/
inductive Value where
  | str : String → Value
  | int : Int → Value
  | rat : ℚ → Value
  | date : Date → Value
  | bool : Bool → Value
deriving DecidableEq, Repr

/-- Python exception kinds surfaced by the cleaning code. -/
inductive Err where
  | keyError
  | typeError
  | valueError
  | dateParseError
  | attributeError
  | indexError
deriving DecidableEq, Repr

instance {ε α : Type} [DecidableEq ε] [DecidableEq α] : DecidableEq (Except ε α)
  | .ok a, .ok b =>
    if h : a = b then .isTrue (by rw [h])
    else .isFalse (by intro he; cases he; exact h rfl)
  | .ok _, .error _ => .isFalse (by intro h; cases h)
  | .error _, .ok _ => .isFalse (by intro h; cases h)
  | .error e, .error e' =>
    if h : e = e' then .isTrue (by rw [h])
    else .isFalse (by intro he; cases he; exact h rfl)

/-- A row: an association list from column name to cell.  A cell of `none`
is a missing value. -/
abbrev Row : Type := List (String × Option Value)

/-- A table: the list of its rows, in order. -/
abbrev Table : Type := List Row

/-- Read the cell of column `c` in row `r`; an absent key reads as missing,
like a pandas `NaN`. -/
def cell (r : Row) (c : String) : Option Value :=
  match r with
  | [] => none
  | (c', v) :: rest => if c' = c then v else cell rest c

/-- Write the cell of column `c` in row `r` (append the binding when the key
is absent), like a pandas column assignment. -/
def setCol (r : Row) (c : String) (v : Option Value) : Row :=
  match r with
  | [] => [(c, v)]
  | (c', v') :: rest => if c' = c then (c', v) :: rest else (c', v') :: setCol rest c v

/-- The keys of a row. -/
def keys (r : Row) : List String :=
  r.map Prod.fst

/-- The column names of a table: the schema carried by its first row
(pandas tables have a uniform schema across rows). -/
def colNames (df : Table) : List String :=
  match df with
  | [] => []
  | r :: _ => keys r

/-- Apply a pure per-cell function to one column of every row,
like `df[c] = df[c].map(f)` for a total `f`. -/
def mapCol (df : Table) (c : String) (f : Option Value → Option Value) : Table :=
  df.map (fun r => setCol r c (f (cell r c)))

/-- Apply a fallible per-cell function to one column of every row; the first
raised exception aborts, like a pandas column operation that throws. -/
def mapColE (df : Table) (c : String) (f : Option Value → Except Err (Option Value)) :
    Except Err Table :=
  match df with
  | [] => .ok []
  | r :: rest =>
    match f (cell r c) with
    | .error e => .error e
    | .ok v =>
      match mapColE rest c f with
      | .error e => .error e
      | .ok rest' => .ok (setCol r c v :: rest')

/-- Remove the binding of column `c` from a row. -/
def dropKey (r : Row) (c : String) : Row :=
  r.filter (fun p => !(p.1 == c))

/-- `df.drop(c, axis=1)`: raises `KeyError` when the column is absent from
the schema, otherwise removes it from every row. -/
def drop_col (df : Table) (c : String) : Except Err Table :=
  if c ∈ colNames df then .ok (df.map (fun r => dropKey r c)) else .error Err.keyError

/-- `Series.isin(vals)` on a cell: string equality against the listed
values; a missing or non-string cell is never a member. -/
def isin (c : Option Value) (vals : List String) : Bool :=
  match c with
  | some (.str s) => vals.any (fun v => s == v)
  | _ => false

/-- `series == lit` on a cell: a missing or non-string cell compares unequal. -/
def cellEqStr (c : Option Value) (lit : String) : Bool :=
  match c with
  | some (.str s) => s == lit
  | _ => false

/-- Python `str.upper()`: upper-case every character. -/
def pyUpper (s : String) : String :=
  String.mk (s.data.map Char.toUpper)

/-- `series.str.upper() == lit` on a cell: the `.str` accessor yields
missing on a non-string cell, which then compares unequal. -/
def cellUpperEqStr (c : Option Value) (lit : String) : Bool :=
  match c with
  | some (.str s) => pyUpper s == lit
  | _ => false

/-- `drop_loans_not_complete` of `src/data_cleaning.py` (lines 83-95):
keep the rows whose `loan_status` is in `('Charged Off', 'Fully Paid')`. -/
def drop_loans_not_complete (df : Table) : Table :=
  df.filter (fun r => isin (cell r "loan_status") ["Charged Off", "Fully Paid"])

/-- `drop_loan_status` (lines 97-109): `df.drop('loan_status', axis=1)`. -/
def drop_loan_status (df : Table) : Except Err Table :=
  drop_col df "loan_status"

/-- `drop_joint_applicant_loans` (lines 111-123): keep the rows whose
upper-cased `application_type` equals `"INDIVIDUAL"`. -/
def drop_joint_applicant_loans (df : Table) : Table :=
  df.filter (fun r => cellUpperEqStr (cell r "application_type") "INDIVIDUAL")

/-- Python's whitespace set for `str.strip()`. -/
def isPySpace (c : Char) : Bool :=
  c == ' ' || c == '\t' || c == '\n' || c == '\x0d' || c == '\x0b' || c == '\x0c'

/-- Python `str.strip()`: remove leading and trailing whitespace. -/
def pyStrip (s : String) : String :=
  String.mk (((s.data.dropWhile isPySpace).reverse.dropWhile isPySpace).reverse)

/-- Strip all trailing `'%'` characters, like Python `str.rstrip('%')`. -/
def rstripPercent (s : String) : String :=
  String.mk ((s.data.reverse.dropWhile (fun c => c == '%')).reverse)

/-- Numeric value of a run of decimal digit characters. -/
def digitsVal (cs : List Char) : Nat :=
  cs.foldl (fun a c => 10 * a + (c.toNat - 48)) 0

/-- Python `float(s)` on plain decimal notation: surrounding whitespace is
ignored, then an optional sign and digits with at most one decimal point.
Exponent and `inf`/`nan` forms, which the loan data never uses, are
omitted.  A non-numeric remainder raises `ValueError`. -/
def parseFloat (s : String) : Except Err ℚ :=
  let cs := (pyStrip s).data
  let neg : Bool := match cs with
    | '-' :: _ => true
    | _ => false
  let cs := match cs with
    | '-' :: rest => rest
    | '+' :: rest => rest
    | rest => rest
  let intPart := cs.takeWhile Char.isDigit
  let signed : ℚ → ℚ := fun q => if neg then -q else q
  match cs.dropWhile Char.isDigit with
  | [] =>
    if intPart.isEmpty then .error Err.valueError
    else .ok (signed (mkRat (digitsVal intPart) 1))
  | '.' :: frac =>
    if frac.all Char.isDigit && !(intPart.isEmpty && frac.isEmpty) then
      .ok (signed (mkRat (digitsVal intPart * 10 ^ frac.length + digitsVal frac) (10 ^ frac.length)))
    else .error Err.valueError
  | _ => .error Err.valueError

/-- One cell of `df[col].str.rstrip('%').astype('float32')`: on a string,
strip trailing percent signs and parse the remainder as a float (raising
`ValueError` when it is not numeric); the `.str` accessor turns a missing
or non-string cell into missing, which `astype` keeps as missing. -/
def rate_cell (c : Option Value) : Except Err (Option Value) :=
  match c with
  | some (.str s) => (parseFloat (rstripPercent s)).map (fun q => some (Value.rat q))
  | _ => .ok none

/-- `fix_rate_cols` (lines 125-142): strip `%` from `int_rate` and
`revol_util` and convert both columns to floats. -/
def fix_rate_cols (df : Table) : Except Err Table :=
  match mapColE df "int_rate" rate_cell with
  | .error e => .error e
  | .ok df' => mapColE df' "revol_util" rate_cell

/-- The per-string term coercion inside `clean_loan_term_col`:
`36 if row.strip() == '36 months' else 60`. -/
def term_coercion (s : String) : Int :=
  if pyStrip s = "36 months" then 36 else 60

/-- One cell of the `clean_loan_term_col` list comprehension: `row.strip()`
raises `AttributeError` on a missing or non-string cell. -/
def term_cell (c : Option Value) : Except Err (Option Value) :=
  match c with
  | some (.str s) => .ok (some (Value.int (term_coercion s)))
  | _ => .error Err.attributeError

/-- `clean_loan_term_col` (lines 144-156): coerce the `term` column to 36 or
60; the following `astype('uint8')` is exact because both values fit. -/
def clean_loan_term_col (df : Table) : Except Err Table :=
  mapColE df "term" term_cell

/-- `only_include_36_month_loans` (lines 158-170): keep rows whose `term`
equals 36. -/
def only_include_36_month_loans (df : Table) : Table :=
  df.filter (fun r => decide (cell r "term" = some (Value.int 36)))

/-- The first maximal run of decimal digits of a character list, if any:
the regex `(\d+)` used by `clean_employment_length`. -/
def firstDigitRun (cs : List Char) : Option (List Char) :=
  match cs with
  | [] => none
  | c :: rest =>
    if c.isDigit then some (c :: rest.takeWhile Char.isDigit)
    else firstDigitRun rest

/-- One cell of the first `clean_employment_length` step:
`0 if row == '< 1 year' else row`.  The replacement value is the Python
integer `0`, not a string. -/
def emp_replace (c : Option Value) : Option Value :=
  if c = some (Value.str "< 1 year") then some (Value.int 0) else c

/-- One cell of the second `clean_employment_length` step:
`.str.extract('(\d+)').astype('float32')`.  The `.str` accessor extracts
the first digit run of a string cell and yields missing for every
non-string cell (including the integer `0` written by the first step) and
for strings without a digit. -/
def emp_extract (c : Option Value) : Option Value :=
  match c with
  | some (.str s) =>
    match firstDigitRun s.data with
    | some ds => some (Value.rat (digitsVal ds : ℚ))
    | none => none
  | _ => none

/-- `clean_employment_length` (lines 172-187): replace `'< 1 year'` by the
integer 0, then extract the first digit run as a float. -/
def clean_employment_length (df : Table) : Table :=
  mapCol (mapCol df "emp_length" emp_replace) "emp_length" emp_extract

/-- The month number of a three-letter abbreviation; `strptime`'s `%b`
matches the abbreviated month names case-insensitively. -/
def monthOfAbbrev (cs : List Char) : Option Nat :=
  match String.mk (cs.map Char.toLower) with
  | "jan" => some 1
  | "feb" => some 2
  | "mar" => some 3
  | "apr" => some 4
  | "may" => some 5
  | "jun" => some 6
  | "jul" => some 7
  | "aug" => some 8
  | "sep" => some 9
  | "oct" => some 10
  | "nov" => some 11
  | "dec" => some 12
  | _ => none

/-- `strptime`'s two-digit-year pivot: `%y` values 00-68 land in the 2000s,
69-99 in the 1900s. -/
def pivotYear (y : Nat) : Nat :=
  if y ≤ 68 then 2000 + y else 1900 + y

/-- `pd.to_datetime(s, format='%y-%b')`: exactly two digits, a dash, and a
month abbreviation; anything else raises.  (`%y` requires exactly two
digits, which is why `convert_date` zero-pads first.) -/
def parse_y_b (s : String) : Except Err Date :=
  match s.data with
  | d₁ :: d₂ :: '-' :: rest =>
    if d₁.isDigit && d₂.isDigit then
      match monthOfAbbrev rest with
      | some m => .ok ⟨pivotYear ((d₁.toNat - 48) * 10 + (d₂.toNat - 48)), m⟩
      | none => .error Err.dateParseError
    else .error Err.dateParseError
  | _ => .error Err.dateParseError

/-- `pd.to_datetime(s, format='%b-%y')`: a month abbreviation, a dash, and
exactly two digits consuming the whole string. -/
def parse_b_y (s : String) : Except Err Date :=
  match s.data with
  | m₁ :: m₂ :: m₃ :: '-' :: y₁ :: y₂ :: [] =>
    if y₁.isDigit && y₂.isDigit then
      match monthOfAbbrev [m₁, m₂, m₃] with
      | some m => .ok ⟨pivotYear ((y₁.toNat - 48) * 10 + (y₂.toNat - 48)), m⟩
      | none => .error Err.dateParseError
    else .error Err.dateParseError
  | _ => .error Err.dateParseError

/-- `pd.to_datetime(s, format='%b-%Y')`: a month abbreviation, a dash, and
exactly four digits (a full year, taken as is). -/
def parse_b_Y (s : String) : Except Err Date :=
  match s.data with
  | m₁ :: m₂ :: m₃ :: '-' :: y₁ :: y₂ :: y₃ :: y₄ :: [] =>
    if y₁.isDigit && y₂.isDigit && y₃.isDigit && y₄.isDigit then
      match monthOfAbbrev [m₁, m₂, m₃] with
      | some m =>
        .ok ⟨((d₁₀ y₁ * 10 + d₁₀ y₂) * 10 + d₁₀ y₃) * 10 + d₁₀ y₄, m⟩
      | none => .error Err.dateParseError
    else .error Err.dateParseError
  | _ => .error Err.dateParseError
where
  d₁₀ (c : Char) : Nat := c.toNat - 48

/-- Python `s.rjust(6, '0')`. -/
def rjust6 (s : String) : String :=
  if s.length < 6 then String.mk (List.replicate (6 - s.length) '0' ++ s.data) else s

/-- `convert_date` (lines 189-208): a digit-leading string is zero-padded
to six characters and parsed as `%y-%b`; a letter-leading string is parsed
as `%b-%y`, falling back to `%b-%Y` when that raises.  Indexing `[0]` into
an empty string raises `IndexError`. -/
def convert_date (s : String) : Except Err Date :=
  match s.data with
  | [] => .error Err.indexError
  | c :: _ =>
    if c.isDigit then parse_y_b (rjust6 s)
    else
      match parse_b_y s with
      | .ok d => .ok d
      | .error _ => parse_b_Y s

/-- One cell of `df[col].map(convert_date)`: `Series.map` applies
`convert_date` to every element, so a missing (`NaN`, a float) or
non-string cell raises `TypeError` at the `col_date[0]` subscript. -/
def convert_date_cell (c : Option Value) : Except Err (Option Value) :=
  match c with
  | some (.str s) =>
    match convert_date s with
    | .ok d => .ok (some (Value.date d))
    | .error e => .error e
  | _ => .error Err.typeError

/-- `df.dropna(subset=[c])`: keep the rows whose cell of column `c` is not
missing. -/
def dropna_col (df : Table) (c : String) : Table :=
  df.filter (fun r => (cell r c).isSome)

/-- `fix_date_cols` (lines 210-226), in source order: drop rows with a
missing `issue_d`, coerce `issue_d`, coerce `earliest_cr_line`, drop rows
with a missing `last_pymnt_d`, coerce `last_pymnt_d`. -/
def fix_date_cols (df : Table) : Except Err Table :=
  match mapColE (dropna_col df "issue_d") "issue_d" convert_date_cell with
  | .error e => .error e
  | .ok d₂ =>
    match mapColE d₂ "earliest_cr_line" convert_date_cell with
    | .error e => .error e
    | .ok d₃ =>
      mapColE (dropna_col d₃ "last_pymnt_d") "last_pymnt_d" convert_date_cell

/-- `fill_nas` (lines 228-242): for every column of the table, replace each
missing value with the sentinel (`df[col].fillna(value)`). -/
def fill_nas (df : Table) (v : Value) : Table :=
  (colNames df).foldl (fun acc c => mapCol acc c (fun x => some (x.getD v))) df

/-- `exclude_loans_before_2010` (lines 268-282):
`df['issue_d'] >= '2010-01-01'` on a date cell.  The coerced dates are
first-of-month timestamps, so the comparison holds exactly when the year is
at least 2010; a missing or non-date cell compares false. -/
def issue_d_ge_2010 (c : Option Value) : Bool :=
  match c with
  | some (.date d) => decide (2010 ≤ d.year)
  | _ => false

/-- `exclude_loans_before_2010` (lines 268-282): keep rows issued in
January 2010 or later. -/
def exclude_loans_before_2010 (df : Table) : Table :=
  df.filter (fun r => issue_d_ge_2010 (cell r "issue_d"))

/-- Ascending comparison of rows by their `issue_d` cell for
`df.sort_values(by='issue_d')`; missing cells sort last, pandas's default. -/
def issueLe (r₁ r₂ : Row) : Bool :=
  match cell r₁ "issue_d", cell r₂ "issue_d" with
  | some (.date a), some (.date b) =>
    decide (a.year < b.year) || (decide (a.year = b.year) && decide (a.month ≤ b.month))
  | some (.date _), _ => true
  | _, some (.date _) => false
  | _, _ => true

/-- Insert a row into a list sorted ascending by `issueLe`. -/
def insertByIssue (r : Row) : Table → Table
  | [] => [r]
  | r' :: rest => if issueLe r r' then r :: r' :: rest else r' :: insertByIssue r rest

/-- `df.sort_values(by='issue_d')`: sort the rows ascending by issue date
(insertion sort; the claims under verification do not depend on how equal
keys are ordered). -/
def sort_values_issue_d (df : Table) : Table :=
  df.foldr insertByIssue []

/-- Modelled from the spec: `create_missing_data_boolean_columns` lives in
`src/feature_engineering.py`, which is not under `src/`.  §4.3 of the spec:
for every column containing at least one missing value, create a companion
boolean column `<col>_missing` that is true exactly where the value is
absent. -/
def create_missing_data_boolean_columns (df : Table) : Table :=
  let missingCols := (colNames df).filter (fun c => df.any (fun r => (cell r c).isNone))
  df.map (fun r =>
    r ++ missingCols.map (fun c => (c ++ "_missing", some (Value.bool (cell r c).isNone))))

/-- Modelled from the spec: `add_supplemental_rate_data` lives in
`src/feature_engineering.py`, which is not under `src/`.  §4.4 treats the
feature-engineering collaborator as a purely functional
`enrich(table) -> table` whose only effect is on the column set, so it is
modelled as preserving the rows and every column the core claims mention. -/
def add_supplemental_rate_data (df : Table) : Table := df

/-- Modelled from the spec: `create_rate_difference_cols` lives in
`src/feature_engineering.py`, which is not under `src/`; see
`add_supplemental_rate_data`. -/
def create_rate_difference_cols (df : Table) : Table := df

/-- Modelled from the spec: `create_months_since_earliest_cl_col` lives in
`src/feature_engineering.py`, which is not under `src/`; see
`add_supplemental_rate_data`. -/
def create_months_since_earliest_cl_col (df : Table) : Table := df

/-- Modelled from the spec: `change_data_types` lives in
`src/feature_engineering.py`, which is not under `src/`; see
`add_supplemental_rate_data`. -/
def change_data_types (df : Table) : Table := df

/-- Modelled from the spec: `create_dummy_cols` lives in
`src/feature_engineering.py`, which is not under `src/`; see
`add_supplemental_rate_data`. -/
def create_dummy_cols (df : Table) : Table := df

/-- `drop_unnecessary_cols` (lines 252-266): drop the listed columns, one
inplace `df.drop(col, axis=1)` per column (each raising `KeyError` when the
column is absent). -/
def drop_unnecessary_cols (df : Table) : Except Err Table :=
  ["zip_code", "total_rec_prncp", "total_rec_int", "earliest_cr_line", "term",
   "last_pymnt_d", "total_pymnt_inv", "application_type"].foldlM
    (fun acc c => drop_col acc c) df

/-- `df.set_index('id')` (line 319): establish `id` as the table's index.
With the default `verify_integrity=False` pandas performs no duplicate
check; a missing `id` column raises `KeyError`.  The index representation
is immaterial to the claims, so the rows (including their `id` cells) are
returned unchanged. -/
def set_index_id (df : Table) : Except Err Table :=
  if "id" ∈ colNames df then .ok df else .error Err.keyError

/-- `clean_and_prepare_raw_data_for_model` (lines 284-321), stage for stage
in source order.  Note that the pipeline drops the `loan_status` column as
its first step and never calls `drop_loans_not_complete`. -/
def clean_and_prepare_raw_data_for_model (df : Table) : Except Err Table := do
  let df ← drop_loan_status df
  let df := drop_joint_applicant_loans df
  let df ← fix_rate_cols df
  let df := dropna_col df "issue_d"
  let df ← fix_date_cols df
  let df := sort_values_issue_d df
  let df := exclude_loans_before_2010 df
  let df ← clean_loan_term_col df
  let df := only_include_36_month_loans df
  let df := clean_employment_length df
  let df := create_missing_data_boolean_columns df
  let df := fill_nas df (Value.int (-99))
  let df := add_supplemental_rate_data df
  let df := create_rate_difference_cols df
  let df := create_months_since_earliest_cl_col df
  let df := change_data_types df
  let df := create_dummy_cols df
  let df ← drop_unnecessary_cols df
  set_index_id df

end Loan

namespace DataCleaningDash

open Loan

/-- `drop_loans_not_complete` of `src/data-cleaning.py` (lines 32-44): the
disjunction-of-equalities variant
`df[(df['loan_status'] == 'Charged Off') | (df['loan_status'] == 'Fully Paid')]`. -/
def drop_loans_not_complete (df : Table) : Table :=
  df.filter (fun r =>
    cellEqStr (cell r "loan_status") "Charged Off" ||
    cellEqStr (cell r "loan_status") "Fully Paid")

/-- `drop_joint_applicant_loans` of `src/data-cleaning.py` (lines 60-72):
`df[df['application_type'].str.upper() == "INDIVIDUAL"]`. -/
def drop_joint_applicant_loans (df : Table) : Table :=
  df.filter (fun r => cellUpperEqStr (cell r "application_type") "INDIVIDUAL")

end DataCleaningDash

namespace Loan

/-- The per-row effect of `fill_nas`: fill every listed column of one row.
`fill_nas` equals mapping this over the rows (`fill_nas_eq_map`). -/
def rowFill (cols : List String) (v : Value) (r : Row) : Row :=
  cols.foldl (fun r c => setCol r c (some ((cell r c).getD v))) r

/-- A raw loan row whose `loan_status` is `"Current"` (an outstanding loan)
but which passes every filter the pipeline actually applies. -/
def c1Row : Row :=
  [("id", some (.int 1)),
   ("loan_status", some (.str "Current")),
   ("application_type", some (.str "Individual")),
   ("int_rate", some (.str "16.37%")),
   ("revol_util", some (.str "50%")),
   ("issue_d", some (.str "Dec-15")),
   ("earliest_cr_line", some (.str "Jan-05")),
   ("last_pymnt_d", some (.str "Dec-18")),
   ("term", some (.str "36 months")),
   ("emp_length", some (.str "3 years")),
   ("zip_code", some (.str "902xx")),
   ("total_rec_prncp", some (.rat 100)),
   ("total_rec_int", some (.rat 10)),
   ("total_pymnt_inv", some (.rat 110))]

/-- An `emp_length` column holding `"< 1 year"`, `"3 years"` and a string
without a digit. -/
def c2Table : Table :=
  [[("emp_length", some (.str "< 1 year"))],
   [("emp_length", some (.str "3 years"))],
   [("emp_length", some (.str "ten"))]]

/-- Row `r'` is row `r` after the `fix_date_cols` coercions: its three
date cells are the `convert_date_cell` results of the corresponding cells
of `r`, and every other cell is unchanged. -/
def dateCoerced (r r' : Row) : Prop :=
  convert_date_cell (cell r "issue_d") = .ok (cell r' "issue_d") ∧
  convert_date_cell (cell r "earliest_cr_line") = .ok (cell r' "earliest_cr_line") ∧
  convert_date_cell (cell r "last_pymnt_d") = .ok (cell r' "last_pymnt_d") ∧
  ∀ c : String, c ≠ "issue_d" → c ≠ "earliest_cr_line" → c ≠ "last_pymnt_d" →
    cell r' c = cell r c

/-- A single row with a parseable `issue_d`, a missing `earliest_cr_line`
and a missing `last_pymnt_d`. -/
def c3Table : Table :=
  [[("issue_d", some (.str "Dec-15")),
    ("earliest_cr_line", none),
    ("last_pymnt_d", none)]]

/-- A two-row date table on which `fix_date_cols` succeeds: the second row
has a missing `last_pymnt_d` (and parseable other dates) and is dropped. -/
def c3OkTable : Table :=
  [[("issue_d", some (.str "Dec-15")),
    ("earliest_cr_line", some (.str "Jan-05")),
    ("last_pymnt_d", some (.str "Dec-18"))],
   [("issue_d", some (.str "Jan-11")),
    ("earliest_cr_line", some (.str "Feb-01")),
    ("last_pymnt_d", none)]]

/-- The surviving row of `c3OkTable` after `fix_date_cols`. -/
def c3OkRow : Row :=
  [("issue_d", some (.date ⟨2015, 12⟩)),
   ("earliest_cr_line", some (.date ⟨2005, 1⟩)),
   ("last_pymnt_d", some (.date ⟨2018, 12⟩))]

/-- A raw loan row like `c1Row` but with `loan_status` `"Fully Paid"`; two
copies of it share the `id` value 1. -/
def c4Row : Row :=
  [("id", some (.int 1)),
   ("loan_status", some (.str "Fully Paid")),
   ("application_type", some (.str "Individual")),
   ("int_rate", some (.str "10.99%")),
   ("revol_util", some (.str "40%")),
   ("issue_d", some (.str "Jun-14")),
   ("earliest_cr_line", some (.str "Mar-02")),
   ("last_pymnt_d", some (.str "Jun-17")),
   ("term", some (.str "36 months")),
   ("emp_length", some (.str "5 years")),
   ("zip_code", some (.str "100xx")),
   ("total_rec_prncp", some (.rat 200)),
   ("total_rec_int", some (.rat 20)),
   ("total_pymnt_inv", some (.rat 220))]

/-- A table with duplicate `id` values in the two rows that survive to
`set_index`. -/
def c4Table : Table := [c4Row, c4Row]

/-- Two rows with duplicated `id` cells, as they stand when `set_index`
runs. -/
def c4DupKeyed : Table :=
  [[("id", some (.int 1))], [("id", some (.int 1))]]

/-- An `int_rate`/`revol_util` table with well-formed percentage strings. -/
def c8Table : Table :=
  [[("int_rate", some (.str "16.37%")), ("revol_util", some (.str "50%"))]]

/-- An `int_rate` cell whose remainder after stripping `%` is not numeric. -/
def c8BadTable : Table :=
  [[("int_rate", some (.str "bad%")), ("revol_util", some (.str "50%"))]]

/-- A small loan-status/applicant-type table exercising both filter
implementations: one complete loan, one outstanding loan, one joint
application, one missing status. -/
def c9Table : Table :=
  [[("loan_status", some (.str "Fully Paid")), ("application_type", some (.str "Individual"))],
   [("loan_status", some (.str "Current")), ("application_type", some (.str "INDIVIDUAL"))],
   [("loan_status", some (.str "Charged Off")), ("application_type", some (.str "Joint App"))],
   [("loan_status", none), ("application_type", none)]]

/-- A table with one missing cell per row, for the imputation witnesses. -/
def c7Table : Table :=
  [[("a", none), ("b", some (.str "x"))],
   [("a", some (.int 5)), ("b", none)]]

end Loan

namespace Loan

theorem cell_setCol_same (r : Row) (c : String) (v : Option Value) :
    cell (setCol r c v) c = v := by
  induction r with
  | nil => simp [setCol, cell]
  | cons p rest ih =>
    obtain ⟨c', v'⟩ := p
    by_cases h : c' = c
    · simp [setCol, h, cell]
    · simp [setCol, h, cell, ih]

theorem cell_setCol_other (r : Row) (c c' : String) (v : Option Value) (h : c ≠ c') :
    cell (setCol r c v) c' = cell r c' := by
  induction r with
  | nil => simp [setCol, cell, h]
  | cons p rest ih =>
    obtain ⟨c₀, v₀⟩ := p
    by_cases h₀ : c₀ = c
    · subst h₀
      simp [setCol, cell, h]
    · simp [setCol, cell, h₀, ih]

theorem keys_setCol_of_mem (r : Row) (c : String) (v : Option Value) :
    c ∈ keys r → keys (setCol r c v) = keys r := by
  induction r with
  | nil => intro h; simp [keys] at h
  | cons p rest ih =>
    intro h
    obtain ⟨c₀, v₀⟩ := p
    by_cases h₀ : c₀ = c
    · simp [setCol, h₀, keys]
    · have hmem : c ∈ keys rest := by
        rcases List.mem_cons.mp h with h' | h'
        · exact absurd h'.symm h₀
        · exact h'
      simp only [setCol, if_neg h₀, keys, List.map_cons, List.cons.injEq, true_and]
      exact ih hmem

theorem mapColE_ok_length {c : String} {f : Option Value → Except Err (Option Value)} :
    ∀ {df t : Table}, mapColE df c f = .ok t → t.length = df.length := by
  intro df
  induction df with
  | nil =>
    intro t h
    simp [mapColE] at h
    simp [h.symm]
  | cons r rest ih =>
    intro t h
    unfold mapColE at h
    cases hf : f (cell r c) with
    | error e => rw [hf] at h; cases h
    | ok v =>
      rw [hf] at h
      cases hrec : mapColE rest c f with
      | error e => rw [hrec] at h; cases h
      | ok rest' =>
        rw [hrec] at h
        cases h
        simp [ih hrec]

theorem mapColE_ok_filter_length {c : String} {f : Option Value → Except Err (Option Value)}
    (p : Row → Bool) (hp : ∀ r v, p (setCol r c v) = p r) :
    ∀ {df t : Table}, mapColE df c f = .ok t →
      (t.filter p).length = (df.filter p).length := by
  intro df
  induction df with
  | nil =>
    intro t h
    simp [mapColE] at h
    simp [h.symm]
  | cons r rest ih =>
    intro t h
    unfold mapColE at h
    cases hf : f (cell r c) with
    | error e => rw [hf] at h; cases h
    | ok v =>
      rw [hf] at h
      cases hrec : mapColE rest c f with
      | error e => rw [hrec] at h; cases h
      | ok rest' =>
        rw [hrec] at h
        cases h
        by_cases hpr : p r
        · simp [List.filter, hp r v, hpr, ih hrec]
        · simp [List.filter, hp r v, hpr, ih hrec]

theorem mapColE_ok_mem {c : String} {f : Option Value → Except Err (Option Value)} :
    ∀ {df t : Table}, mapColE df c f = .ok t →
      ∀ {r' : Row}, r' ∈ t →
        ∃ r v, r ∈ df ∧ f (cell r c) = .ok v ∧ r' = setCol r c v := by
  intro df
  induction df with
  | nil =>
    intro t h r' hr'
    simp [mapColE] at h
    subst h
    cases hr'
  | cons r rest ih =>
    intro t h r' hr'
    unfold mapColE at h
    cases hf : f (cell r c) with
    | error e => rw [hf] at h; cases h
    | ok v =>
      rw [hf] at h
      cases hrec : mapColE rest c f with
      | error e => rw [hrec] at h; cases h
      | ok rest' =>
        rw [hrec] at h
        cases h
        rcases List.mem_cons.mp hr' with h' | h'
        · exact ⟨r, v, List.mem_cons_self r rest, hf, h'⟩
        · obtain ⟨r₀, v₀, hmem, hok, heq⟩ := ih hrec h'
          exact ⟨r₀, v₀, List.mem_cons_of_mem r hmem, hok, heq⟩

theorem foldl_mapCol_eq_map (g : String → Option Value → Option Value) :
    ∀ (cols : List String) (df : Table),
      cols.foldl (fun acc c => mapCol acc c (g c)) df =
        df.map (fun r => cols.foldl (fun r c => setCol r c (g c (cell r c))) r) := by
  intro cols
  induction cols with
  | nil => intro df; simp
  | cons c rest ih =>
    intro df
    simp only [List.foldl_cons]
    rw [ih (mapCol df c (g c))]
    simp [mapCol, List.map_map]

theorem fill_nas_eq_map (df : Table) (v : Value) :
    fill_nas df v = df.map (rowFill (colNames df) v) := by
  unfold fill_nas rowFill
  exact foldl_mapCol_eq_map (fun _ x => some (x.getD v)) (colNames df) df

theorem rowFill_cell_some (v : Value) (c : String) (x : Value) :
    ∀ (cols : List String) (r : Row), cell r c = some x →
      cell (rowFill cols v r) c = some x := by
  intro cols
  induction cols with
  | nil => intro r h; simpa [rowFill] using h
  | cons c₀ rest ih =>
    intro r h
    show cell (rowFill rest v (setCol r c₀ (some ((cell r c₀).getD v)))) c = some x
    by_cases hc : c₀ = c
    · subst hc
      apply ih
      rw [cell_setCol_same, h]
      rfl
    · apply ih
      rw [cell_setCol_other _ _ _ _ hc]
      exact h

theorem rowFill_cell_none (v : Value) (c : String) :
    ∀ (cols : List String) (r : Row), c ∈ cols → cell r c = none →
      cell (rowFill cols v r) c = some v := by
  intro cols
  induction cols with
  | nil => intro r hmem; cases hmem
  | cons c₀ rest ih =>
    intro r hmem h
    show cell (rowFill rest v (setCol r c₀ (some ((cell r c₀).getD v)))) c = some v
    by_cases hc : c₀ = c
    · subst hc
      apply rowFill_cell_some
      rw [cell_setCol_same, h]
      rfl
    · have hmem' : c ∈ rest := by
        rcases List.mem_cons.mp hmem with h' | h'
        · exact absurd h'.symm hc
        · exact h'
      apply ih _ hmem'
      rw [cell_setCol_other _ _ _ _ hc]
      exact h

theorem keys_rowFill (v : Value) :
    ∀ (cols : List String) (r : Row), (∀ c ∈ cols, c ∈ keys r) →
      keys (rowFill cols v r) = keys r := by
  intro cols
  induction cols with
  | nil => intro r _; rfl
  | cons c₀ rest ih =>
    intro r h
    have h₀ : c₀ ∈ keys r := h c₀ (List.mem_cons_self c₀ rest)
    have hk : keys (setCol r c₀ (some ((cell r c₀).getD v))) = keys r :=
      keys_setCol_of_mem r c₀ _ h₀
    show keys (rowFill rest v (setCol r c₀ (some ((cell r c₀).getD v)))) = keys r
    rw [ih _ (fun c hc => by rw [hk]; exact h c (List.mem_cons_of_mem c₀ hc)), hk]

theorem colNames_fill_nas (df : Table) (v : Value) :
    colNames (fill_nas df v) = colNames df := by
  rw [fill_nas_eq_map]
  cases df with
  | nil => rfl
  | cons r rest =>
    show keys (rowFill (keys r) v r) = keys r
    exact keys_rowFill v (keys r) r (fun c hc => hc)

theorem filter_filter_eq (p q : Row → Bool) (df : Table) :
    (df.filter p).filter q = df.filter (fun r => p r && q r) := by
  rw [List.filter_filter]
  apply List.filter_congr
  intro a _
  exact Bool.and_comm (q a) (p a)

theorem mapColE_ok_forall₂ {c : String} {f : Option Value → Except Err (Option Value)} :
    ∀ {df t : Table}, mapColE df c f = .ok t →
      List.Forall₂ (fun r r' => ∃ v, f (cell r c) = .ok v ∧ r' = setCol r c v) df t := by
  intro df
  induction df with
  | nil =>
    intro t h
    simp [mapColE] at h
    subst h
    exact List.Forall₂.nil
  | cons r rest ih =>
    intro t h
    unfold mapColE at h
    cases hf : f (cell r c) with
    | error e => rw [hf] at h; cases h
    | ok v =>
      rw [hf] at h
      cases hrec : mapColE rest c f with
      | error e => rw [hrec] at h; cases h
      | ok rest' =>
        rw [hrec] at h
        cases h
        exact List.Forall₂.cons ⟨v, hf, rfl⟩ (ih hrec)

theorem forall₂_comp_rows {R S T : Row → Row → Prop}
    (hcomp : ∀ a b c, R a b → S b c → T a c) :
    ∀ {l₁ l₂ l₃ : Table}, List.Forall₂ R l₁ l₂ → List.Forall₂ S l₂ l₃ →
      List.Forall₂ T l₁ l₃ := by
  intro l₁ l₂ l₃ h₁
  induction h₁ generalizing l₃ with
  | nil =>
    intro h₂
    cases h₂
    exact List.Forall₂.nil
  | cons hab htail ih =>
    intro h₂
    cases h₂ with
    | cons hbc htail₂ => exact List.Forall₂.cons (hcomp _ _ _ hab hbc) (ih htail₂)

theorem forall₂_filter_rows {R : Row → Row → Prop} {p q : Row → Bool}
    (hpq : ∀ a b, R a b → p a = q b) :
    ∀ {l₁ l₂ : Table}, List.Forall₂ R l₁ l₂ →
      List.Forall₂ R (l₁.filter p) (l₂.filter q) := by
  intro l₁ l₂ h
  induction h with
  | nil => exact List.Forall₂.nil
  | @cons a b l₁' l₂' hab htail ih =>
    by_cases hpa : p a
    · have hqb : q b = true := (hpq a b hab).symm.trans hpa
      simp only [List.filter_cons, hpa, hqb, if_true]
      exact List.Forall₂.cons hab ih
    · have hqb : ¬q b = true := fun hq => hpa ((hpq a b hab).trans hq)
      simp only [List.filter_cons, if_neg hpa, if_neg hqb]
      exact ih

/-- C1: the claim fails on the code.  The pipeline
`clean_and_prepare_raw_data_for_model` never filters by loan status: it
drops the `loan_status` column as its very first step and never calls
`drop_loans_not_complete`.  This row, whose original `loan_status` is
`"Current"` (neither `"Charged Off"` nor `"Fully Paid"`) but which passes
the applicant-type, term and issue-date filters, survives to the final
table. -/
theorem c1_pipeline_keeps_incomplete_loan :
    cell c1Row "loan_status" = some (Value.str "Current") ∧
    Except.map (fun t => t.map (fun r => cell r "id"))
        (clean_and_prepare_raw_data_for_model [c1Row]) =
      Except.ok [some (Value.int 1)] := by
  exact ⟨by decide, by decide⟩

/-- C2: the claim fails on the code.  `clean_employment_length` maps the
exact string `"< 1 year"` to missing, not to 0.0: its first step replaces
the string with the Python integer 0, and the following
`.str.extract('(\d+)')` step yields missing for every non-string cell.
Other strings are mapped to the float value of their first digit run
(`"3 years"` to 3.0) and a string without a digit run becomes missing. -/
theorem c2_emp_length_lt_one_year_is_missing :
    (clean_employment_length c2Table).map (fun r => cell r "emp_length") =
      [none, some (Value.rat 3), none] := by decide

/-- C3 counterexample: on a table whose single row has a parseable
`issue_d` but missing `earliest_cr_line` and `last_pymnt_d`, the claim
predicts the row is dropped (missing `last_pymnt_d`) before
`earliest_cr_line` is coerced, giving an empty table; the code instead
coerces `earliest_cr_line` first and raises `TypeError` on the missing
value. -/
theorem c3_counterexample :
    fix_date_cols c3Table = Except.error Err.typeError := by decide

/-- C3 amended: rows with a missing `issue_d` are dropped before any
coercion, and rows with a missing `last_pymnt_d` are dropped only after
`earliest_cr_line` has been coerced; `earliest_cr_line` is never used to
drop rows.  Whenever `fix_date_cols` succeeds, the surviving rows are
exactly those whose `issue_d` and `last_pymnt_d` were present: the output
corresponds row for row, in order, to the rows of the input with both
cells non-missing, each being its input row with the three date columns
coerced and every other cell unchanged. -/
theorem c3_dropped_rows (df t : Table) (h : fix_date_cols df = Except.ok t) :
    List.Forall₂ dateCoerced
      (df.filter (fun r => (cell r "issue_d").isSome && (cell r "last_pymnt_d").isSome)) t := by
  unfold fix_date_cols at h
  cases h₁ : mapColE (dropna_col df "issue_d") "issue_d" convert_date_cell with
  | error e => rw [h₁] at h; cases h
  | ok d₂ =>
    rw [h₁] at h
    have h' : (match mapColE d₂ "earliest_cr_line" convert_date_cell with
        | Except.error e => Except.error e
        | Except.ok d₃ =>
          mapColE (dropna_col d₃ "last_pymnt_d") "last_pymnt_d" convert_date_cell) =
        Except.ok t := h
    cases h₂ : mapColE d₂ "earliest_cr_line" convert_date_cell with
    | error e => rw [h₂] at h'; cases h'
    | ok d₃ =>
      rw [h₂] at h'
      have h₃ : mapColE (dropna_col d₃ "last_pymnt_d") "last_pymnt_d" convert_date_cell =
          Except.ok t := h'
      have f₁ := mapColE_ok_forall₂ h₁
      have f₂ := mapColE_ok_forall₂ h₂
      have f₃ := mapColE_ok_forall₂ h₃
      have f₁₂ : List.Forall₂ (fun r r' => ∃ v₁ v₂,
          convert_date_cell (cell r "issue_d") = .ok v₁ ∧
          convert_date_cell (cell r "earliest_cr_line") = .ok v₂ ∧
          r' = setCol (setCol r "issue_d" v₁) "earliest_cr_line" v₂)
          (dropna_col df "issue_d") d₃ := by
        refine forall₂_comp_rows ?_ f₁ f₂
        rintro a b c ⟨v₁, hv₁, rfl⟩ ⟨v₂, hv₂, rfl⟩
        refine ⟨v₁, v₂, hv₁, ?_, rfl⟩
        rw [cell_setCol_other _ _ _ _ (by decide)] at hv₂
        exact hv₂
      have f₁₂f : List.Forall₂ (fun r r' => ∃ v₁ v₂,
          convert_date_cell (cell r "issue_d") = .ok v₁ ∧
          convert_date_cell (cell r "earliest_cr_line") = .ok v₂ ∧
          r' = setCol (setCol r "issue_d" v₁) "earliest_cr_line" v₂)
          ((dropna_col df "issue_d").filter (fun r => (cell r "last_pymnt_d").isSome))
          (d₃.filter (fun r => (cell r "last_pymnt_d").isSome)) := by
        refine forall₂_filter_rows ?_ f₁₂
        rintro a b ⟨v₁, v₂, hv₁, hv₂, rfl⟩
        rw [cell_setCol_other _ _ _ _ (by decide), cell_setCol_other _ _ _ _ (by decide)]
      have final : List.Forall₂ dateCoerced
          ((dropna_col df "issue_d").filter (fun r => (cell r "last_pymnt_d").isSome)) t := by
        refine forall₂_comp_rows ?_ f₁₂f f₃
        rintro a b c ⟨v₁, v₂, hv₁, hv₂, rfl⟩ ⟨v₃, hv₃, rfl⟩
        refine ⟨?_, ?_, ?_, ?_⟩
        · rw [cell_setCol_other _ _ _ _ (by decide), cell_setCol_other _ _ _ _ (by decide),
              cell_setCol_same]
          exact hv₁
        · rw [cell_setCol_other _ _ _ _ (by decide), cell_setCol_same]
          exact hv₂
        · rw [cell_setCol_same]
          rw [cell_setCol_other _ _ _ _ (by decide),
              cell_setCol_other _ _ _ _ (by decide)] at hv₃
          exact hv₃
        · intro c' hc₁ hc₂ hc₃
          rw [cell_setCol_other _ _ _ _ (Ne.symm hc₃), cell_setCol_other _ _ _ _ (Ne.symm hc₂),
              cell_setCol_other _ _ _ _ (Ne.symm hc₁)]
      have heq : (dropna_col df "issue_d").filter (fun r => (cell r "last_pymnt_d").isSome) =
          df.filter (fun r => (cell r "issue_d").isSome && (cell r "last_pymnt_d").isSome) := by
        unfold dropna_col
        exact filter_filter_eq _ _ df
      rw [heq] at final
      exact final

/-- Witness for `c3_dropped_rows`: on `c3OkTable` the stage succeeds, and
the output is exactly the coerced copy of the one row with both `issue_d`
and `last_pymnt_d` present. -/
theorem c3_dropped_rows_witness :
    List.Forall₂ dateCoerced
      (c3OkTable.filter (fun r => (cell r "issue_d").isSome && (cell r "last_pymnt_d").isSome))
      [c3OkRow] :=
  c3_dropped_rows c3OkTable [c3OkRow] (by decide)

/-- C4 counterexample: on a table whose two surviving rows share `id` 1
the claim predicts a fatal `DuplicateKeyError`, but the pipeline succeeds
and returns both rows, still sharing the same `id`. -/
theorem c4_counterexample :
    Except.map (fun t => t.map (fun r => cell r "id"))
        (clean_and_prepare_raw_data_for_model c4Table) =
      Except.ok [some (Value.int 1), some (Value.int 1)] := by decide

/-- C4 amended: establishing `id` as the key never checks uniqueness
(`set_index` runs with the default non-verifying mode): whenever the `id`
column exists the table is returned unchanged, duplicates included, and
there is an input on which the whole pipeline succeeds with two output
rows sharing `id` 1. -/
theorem c4_no_duplicate_check :
    (∀ t : Table, "id" ∈ colNames t → set_index_id t = Except.ok t) ∧
    (∃ df : Table, Except.map (fun t => t.map (fun r => cell r "id"))
        (clean_and_prepare_raw_data_for_model df) =
      Except.ok [some (Value.int 1), some (Value.int 1)]) := by
  constructor
  · intro t ht
    unfold set_index_id
    simp [ht]
  · exact ⟨c4Table, by decide⟩

/-- Witness for `c4_no_duplicate_check`: `set_index` accepts a table whose
two rows share `id` 1. -/
theorem c4_no_duplicate_check_witness :
    set_index_id c4DupKeyed = Except.ok c4DupKeyed :=
  c4_no_duplicate_check.1 c4DupKeyed (by decide)

/-- C5: `term_coercion` maps every string whose stripped value is
`"36 months"` to 36 and every other string to 60, and every `term` cell
produced by `clean_loan_term_col` is 36 or 60 (both fit in a `uint8`). -/
theorem c5_term_coercion_spec :
    (∀ s : String, pyStrip s = "36 months" → term_coercion s = 36) ∧
    (∀ s : String, pyStrip s ≠ "36 months" → term_coercion s = 60) ∧
    (∀ (df t : Table), clean_loan_term_col df = Except.ok t →
      ∀ r ∈ t, cell r "term" = some (Value.int 36) ∨ cell r "term" = some (Value.int 60)) := by
  refine ⟨fun s h => by simp [term_coercion, h],
          fun s h => by simp [term_coercion, h], ?_⟩
  intro df t h r hr
  obtain ⟨r₀, v, hmem, hok, rfl⟩ := mapColE_ok_mem h hr
  cases hc : cell r₀ "term" with
  | none =>
    rw [hc] at hok
    cases hok
  | some val =>
    rw [hc] at hok
    cases val with
    | str s =>
      simp only [term_cell] at hok
      cases hok
      rw [cell_setCol_same]
      unfold term_coercion
      by_cases h36 : pyStrip s = "36 months"
      · left; simp [h36]
      · right; simp [h36]
    | int i => cases hok
    | rat q => cases hok
    | date d => cases hok
    | bool b => cases hok

/-- Witness for `c5_term_coercion_spec` at `" 36 months "` and
`"60 months"`. -/
theorem c5_term_coercion_spec_witness :
    term_coercion " 36 months " = 36 ∧ term_coercion "60 months" = 60 :=
  ⟨c5_term_coercion_spec.1 " 36 months " (by decide),
   c5_term_coercion_spec.2.1 "60 months" (by decide)⟩

/-- C6: `convert_date` parses `"5-Dec"` (digit-leading, zero-padded to
`"05-Dec"`) and `"Dec-05"` (letter-leading) to December 2005, and
`"Dec-2015"` to December 2015 via the `%b-%Y` fallback after the `%b-%y`
parse fails. -/
theorem c6_convert_date_formats :
    convert_date "5-Dec" = Except.ok ⟨2005, 12⟩ ∧
    convert_date "Dec-05" = Except.ok ⟨2005, 12⟩ ∧
    convert_date "Dec-2015" = Except.ok ⟨2015, 12⟩ ∧
    rjust6 "5-Dec" = "05-Dec" ∧
    parse_b_y "Dec-2015" = Except.error Err.dateParseError := by decide

/-- C7: after `fill_nas` with sentinel -99, no column of the table has a
missing value, and every cell that was missing now holds -99. -/
theorem c7_fill_nas_no_missing (df : Table) (c : String) (hc : c ∈ colNames df)
    (i : Nat) (r₀ r₁ : Row) (h₀ : df[i]? = some r₀)
    (h₁ : (fill_nas df (Value.int (-99)))[i]? = some r₁) :
    (cell r₁ c).isSome = true ∧
    (cell r₀ c = none → cell r₁ c = some (Value.int (-99))) := by
  rw [fill_nas_eq_map] at h₁
  rw [List.getElem?_map, h₀, Option.map_some'] at h₁
  have hr : r₁ = rowFill (colNames df) (Value.int (-99)) r₀ := by
    injection h₁ with h'
    exact h'.symm
  subst hr
  cases hcell : cell r₀ c with
  | none =>
    have hfill := rowFill_cell_none (Value.int (-99)) c (colNames df) r₀ hc hcell
    exact ⟨by rw [hfill]; rfl, fun _ => hfill⟩
  | some x =>
    have hkeep := rowFill_cell_some (Value.int (-99)) c x (colNames df) r₀ hcell
    exact ⟨by rw [hkeep]; rfl, fun hn => by cases hn⟩

/-- Witness for `c7_fill_nas_no_missing` on `c7Table`: the missing `"a"`
cell of the first row is filled with -99. -/
theorem c7_fill_nas_no_missing_witness :
    (cell [("a", some (Value.int (-99))), ("b", some (Value.str "x"))] "a").isSome = true ∧
    (cell [("a", none), ("b", some (Value.str "x"))] "a" = none →
      cell [("a", some (Value.int (-99))), ("b", some (Value.str "x"))] "a" =
        some (Value.int (-99))) :=
  c7_fill_nas_no_missing c7Table "a" (by decide) 0
    [("a", none), ("b", some (Value.str "x"))]
    [("a", some (Value.int (-99))), ("b", some (Value.str "x"))]
    (by decide) (by decide)

/-- C8: `fix_rate_cols` strips the trailing percent sign and parses the
remainder exactly: `"16.37%"` becomes the rational 16.37 (= 1637/100; the
`float32` narrowing is modelled as exact), and a non-numeric remainder
such as `"bad%"` raises `ValueError` instead of producing a value. -/
theorem c8_rate_coercion_spec :
    rate_cell (some (Value.str "16.37%")) = Except.ok (some (Value.rat (mkRat 1637 100))) ∧
    (16.37 : ℚ) = mkRat 1637 100 ∧
    Except.map (fun t => t.map (fun r => cell r "int_rate")) (fix_rate_cols c8Table) =
      Except.ok [some (Value.rat (mkRat 1637 100))] ∧
    fix_rate_cols c8BadTable = Except.error Err.valueError := by
  refine ⟨by decide, by norm_num [mkRat, Rat.normalize], by decide, by decide⟩

/-- C9: the two source files implement the completion-status filter and
the applicant-type filter extensionally equally: the `isin`-mask version
and the disjunction-of-equalities version select exactly the same rows of
every table, and likewise the two `drop_joint_applicant_loans`. -/
theorem c9_filter_implementations_agree (df : Table) :
    DataCleaningDash.drop_loans_not_complete df = drop_loans_not_complete df ∧
    DataCleaningDash.drop_joint_applicant_loans df = drop_joint_applicant_loans df := by
  constructor
  · unfold DataCleaningDash.drop_loans_not_complete drop_loans_not_complete
    apply List.filter_congr
    intro r _
    cases hc : cell r "loan_status" with
    | none => simp [isin, cellEqStr]
    | some v => cases v <;> simp [isin, cellEqStr]
  · rfl

/-- Witness for `c9_filter_implementations_agree` at `c9Table`. -/
theorem c9_filter_implementations_agree_witness :
    DataCleaningDash.drop_loans_not_complete c9Table = drop_loans_not_complete c9Table ∧
    DataCleaningDash.drop_joint_applicant_loans c9Table = drop_joint_applicant_loans c9Table :=
  c9_filter_implementations_agree c9Table

/-- C10: `fill_nas` is frame-preserving: it adds or removes no rows and no
columns, and every cell that is not missing keeps its value. -/
theorem c10_fill_nas_frame (df : Table) (v : Value) :
    (fill_nas df v).length = df.length ∧
    colNames (fill_nas df v) = colNames df ∧
    ∀ (i : Nat) (c : String) (x : Value) (r₀ r₁ : Row),
      df[i]? = some r₀ → (fill_nas df v)[i]? = some r₁ →
      cell r₀ c = some x → cell r₁ c = some x := by
  refine ⟨by rw [fill_nas_eq_map]; exact List.length_map _ _, colNames_fill_nas df v, ?_⟩
  intro i c x r₀ r₁ h₀ h₁ hcell
  rw [fill_nas_eq_map] at h₁
  rw [List.getElem?_map, h₀, Option.map_some'] at h₁
  have hr : r₁ = rowFill (colNames df) v r₀ := by
    injection h₁ with h'
    exact h'.symm
  subst hr
  exact rowFill_cell_some v c x (colNames df) r₀ hcell

/-- Witness for `c10_fill_nas_frame` on `c7Table`: the present `"b"` cell
of the first row is unchanged by imputation. -/
theorem c10_fill_nas_frame_witness :
    cell [("a", some (Value.int (-99))), ("b", some (Value.str "x"))] "b" =
      some (Value.str "x") :=
  (c10_fill_nas_frame c7Table (Value.int (-99))).2.2 0 "b" (Value.str "x")
    [("a", none), ("b", some (Value.str "x"))]
    [("a", some (Value.int (-99))), ("b", some (Value.str "x"))]
    (by decide) (by decide) (by decide)

end Loan
